import Mathlib

/-!
Shallow embedding of the PyESAPI numeric core (src/pyesapi/__init__.py):
grid scan geometry (`fill_in_profiles`), segment-mask extraction
(`make_segment_mask_for_structure`, `make_segment_mask_for_grid` with the
partial-volume sub-sampling path), dose calibration (`dose_to_nparray`),
NaN scrubbing (`make_dose_for_grid`), and the SAFE_MODE copy verification
(`check_arrays`).

Modelling conventions: physical coordinates and array values are rationals
(`ℚ`) in place of IEEE doubles; a possibly-NaN double is `Option ℚ` with
`none` for NaN; the external collaborators (`GetSegmentProfile`,
`GetDoseProfile`, `GetVoxels`, `VoxelToDoseValue`) are abstract function
fields of `Struct` / `DoseObj`; effectful scanning is embedded by returning,
next to the result, the list of (start, stop) profile queries issued, so
that "work performed before a failure" is observable.
-/

/-- A 3-vector, embedding `VVector` (components modelled as `ℚ`). -/
structure VVec where
  x : ℚ
  y : ℚ
  z : ℚ
  deriving DecidableEq, Repr

/-- `VVector.op_Addition`. -/
def vadd (a b : VVec) : VVec := ⟨a.x + b.x, a.y + b.y, a.z + b.z⟩

/-- `VVector.op_Multiply` (scalar times vector). -/
def smul (c : ℚ) (v : VVec) : VVec := ⟨c * v.x, c * v.y, c * v.z⟩

/-- The grid half of a `dose_or_image` object: origin, direction vectors,
resolutions and sizes, as read by `fill_in_profiles` and
`make_segment_mask_for_grid`. -/
structure GridSpec where
  origin : VVec
  xDir : VVec
  yDir : VVec
  zDir : VVec
  xRes : ℚ
  yRes : ℚ
  zRes : ℚ
  xSize : ℕ
  ySize : ℕ
  zSize : ℕ
  deriving DecidableEq, Repr

/-- A structure collaborator: `HasSegment` and `GetSegmentProfile`.
`segProfile start stop len i` is the bit at index `i` that the collaborator
writes into a buffer of length `len` for the ray `start → stop`. -/
structure Struct where
  hasSegment : Bool
  segProfile : VVec → VVec → ℕ → ℕ → Bool

/-- `start_x` at the top of the x-loop of `fill_in_profiles`:
`Origin + (x * XRes) * XDirection`. -/
def scanStartX (g : GridSpec) (x : ℕ) : VVec :=
  vadd g.origin (smul ((x : ℚ) * g.xRes) g.xDir)

/-- `y_step = YRes * YDirection`. -/
def yStep (g : GridSpec) : VVec := smul g.yRes g.yDir

/-- `z_direction = ((ZSize - 1) * ZRes) * ZDirection`. -/
def zSpan (g : GridSpec) : VVec :=
  smul (((g.zSize : ℚ) - 1) * g.zRes) g.zDir

/-- The value of `start_x` at inner-loop iteration `y` of
`fill_in_profiles`: the code accumulates `start_x += y_step` once per
y-iteration, so iteration `y` sees `scanStartX` plus `y` accumulated steps. -/
def scanStart (g : GridSpec) (x y : ℕ) : VVec :=
  match y with
  | 0 => scanStartX g x
  | Nat.succ y0 => vadd (scanStart g x y0) (yStep g)

/-- `stop = start_x + z_direction` at iteration (x, y). -/
def scanStop (g : GridSpec) (x y : ℕ) : VVec :=
  vadd (scanStart g x y) (zSpan g)

/-- The ordered list of (start, stop) profile queries one full scan of
`fill_in_profiles` issues: x outer loop, y inner loop. -/
def scanCalls (g : GridSpec) : List (VVec × VVec) :=
  (List.range g.xSize).flatMap fun x =>
    (List.range g.ySize).map fun y => (scanStart g x y, scanStop g x y)

/-- `fill_in_profiles`: the output array's value at `[x, y, z]` is the
`z`-th entry of the row buffer (length `ZSize`) the profile function filled
for the ray of column (x, y). -/
def fill_in_profiles {β : Type} (g : GridSpec)
    (pf : VVec → VVec → ℕ → ℕ → β) : ℕ → ℕ → ℕ → β :=
  fun x y z => pf (scanStart g x y) (scanStop g x y) g.zSize z

/-- The binary segment mask produced by the scan of
`make_segment_mask_for_structure` (value at `[x, y, z]`). -/
def segMask (s : Struct) (g : GridSpec) : ℕ → ℕ → ℕ → Bool :=
  fill_in_profiles g s.segProfile

/-- `make_segment_mask_for_structure`: raises unless `HasSegment`, else
scans with `GetSegmentProfile`. Returns (profile queries issued, result). -/
def make_segment_mask_for_structure (g : GridSpec) (s : Struct) :
    List (VVec × VVec) × Except String (ℕ → ℕ → ℕ → Bool) :=
  if s.hasSegment = true then (scanCalls g, Except.ok (segMask s g))
  else ([], Except.error "structure has no segment data")

/-- The mask array extended to `ℤ` indices, false outside the grid: this is
how scipy's `binary_erosion`/`binary_dilation` with `border_value = 0`
see the array. -/
def maskZ (s : Struct) (g : GridSpec) (i j k : ℤ) : Bool :=
  if 0 ≤ i ∧ i < (g.xSize : ℤ) ∧ 0 ≤ j ∧ j < (g.ySize : ℤ) ∧
     0 ≤ k ∧ k < (g.zSize : ℤ)
  then segMask s g i.toNat j.toNat k.toNat else false

/-- The default scipy structuring element `generate_binary_structure(3, 1)`:
the center voxel and its six face neighbours. -/
def nbrOffsets : List (ℤ × ℤ × ℤ) :=
  [(0,0,0), (1,0,0), (-1,0,0), (0,1,0), (0,-1,0), (0,0,1), (0,0,-1)]

/-- `binary_erosion(mask)` at voxel (x, y, z). -/
def erodedAt (s : Struct) (g : GridSpec) (x y z : ℕ) : Bool :=
  nbrOffsets.all fun o =>
    maskZ s g ((x : ℤ) + o.1) ((y : ℤ) + o.2.1) ((z : ℤ) + o.2.2)

/-- `binary_dilation(mask)` at voxel (x, y, z). -/
def dilatedAt (s : Struct) (g : GridSpec) (x y z : ℕ) : Bool :=
  nbrOffsets.any fun o =>
    maskZ s g ((x : ℤ) + o.1) ((y : ℤ) + o.2.1) ((z : ℤ) + o.2.2)

/-- `mask_boundary = mask_dilated ^ mask_eroded` (elementwise XOR). -/
def boundaryAt (s : Struct) (g : GridSpec) (x y z : ℕ) : Bool :=
  dilatedAt s g x y z != erodedAt s g x y z

/-- `np.linspace(a, b, n)` (for `n ≥ 2`): `a + i * ((b - a) / (n - 1))`. -/
def linspace (a b : ℚ) (n : ℕ) : List ℚ :=
  (List.range n).map fun (i : ℕ) => a + (i : ℚ) * ((b - a) / ((n : ℚ) - 1))

/-- The physical center the refinement loop computes for voxel
(ix, iy, iz): `Origin.x + ix * XRes` and likewise for y, z. -/
def voxelCenter (g : GridSpec) (ix iy iz : ℕ) : VVec :=
  ⟨g.origin.x + (ix : ℚ) * g.xRes,
   g.origin.y + (iy : ℚ) * g.yRes,
   g.origin.z + (iz : ℚ) * g.zRes⟩

/-- The (start, stop) pairs of the `GetSegmentProfile` queries the
partial-volume refinement issues for one boundary voxel: `xf` outer loop,
`yf` inner loop, each over `np.linspace(-0.5*res, 0.5*res, n)`, with the
depth segment from `z - 0.5*ZRes` to `z + 0.5*ZRes`. -/
def refineCalls (g : GridSpec) (n : ℕ) (ix iy iz : ℕ) : List (VVec × VVec) :=
  (linspace (-(1/2) * g.xRes) ((1/2) * g.xRes) n).flatMap fun xf =>
    (linspace (-(1/2) * g.yRes) ((1/2) * g.yRes) n).map fun yf =>
      (⟨(voxelCenter g ix iy iz).x + xf, (voxelCenter g ix iy iz).y + yf,
        (voxelCenter g ix iy iz).z - (1/2) * g.zRes⟩,
       ⟨(voxelCenter g ix iy iz).x + xf, (voxelCenter g ix iy iz).y + yf,
        (voxelCenter g ix iy iz).z + (1/2) * g.zRes⟩)

/-- `for b in inside: if b: f += 1` for one query: the number of true bits
in the length-`n` buffer `GetSegmentProfile` filled. -/
def bitCount (s : Struct) (st sp : VVec) (n : ℕ) : ℕ :=
  (List.range n).countP fun i => s.segProfile st sp n i

/-- The total inside-sample count `f` accumulated over the n × n queries of
one boundary voxel. -/
def refineCount (s : Struct) (g : GridSpec) (n ix iy iz : ℕ) : ℕ :=
  ((refineCalls g n ix iy iz).map fun q => bitCount s q.1 q.2 n).sum

/-- `f / nsamples` with `nsamples = sub_samples ** 3`. -/
def refineFrac (s : Struct) (g : GridSpec) (n ix iy iz : ℕ) : ℚ :=
  (refineCount s g n ix iy iz : ℚ) / ((n : ℚ) ^ 3)

/-- `mask_partials`: the refined fraction at boundary voxels, `0.0`
elsewhere (`np.zeros_like(mask, dtype=float)` filled only at boundary
indices). -/
def boundaryFrac (s : Struct) (g : GridSpec) (n : ℕ) (x y z : ℕ) : ℚ :=
  if boundaryAt s g x y z = true then refineFrac s g n x y z else 0

/-- Numpy's implicit bool-to-float coercion. -/
def boolToQ (b : Bool) : ℚ := if b then 1 else 0

/-- `mask_partials + mask_eroded`, the array the sub-sampled path returns. -/
def subMask (s : Struct) (g : GridSpec) (n : ℕ) (x y z : ℕ) : ℚ :=
  boundaryFrac s g n x y z + boolToQ (erodedAt s g x y z)

/-- A dynamically typed Python value passed as `sub_samples`. -/
inductive PyVal
  | intV : ℤ → PyVal
  | floatV : ℚ → PyVal
  | boolV : Bool → PyVal
  deriving DecidableEq, Repr

/-- `type(v) == int` (exact type check: `type(True) == int` is `False`). -/
def PyVal.isInt : PyVal → Bool
  | PyVal.intV _ => true
  | _ => false

/-- `np.where(mask_boundary)` unpacked by the `zip` of the refinement loop:
boundary voxel indices in C (lexicographic) order. -/
def boundaryIdx (s : Struct) (g : GridSpec) : List (ℕ × ℕ × ℕ) :=
  (List.range g.xSize).flatMap fun x =>
    (List.range g.ySize).flatMap fun y =>
      ((List.range g.zSize).filter fun z => boundaryAt s g x y z).map
        fun z => (x, y, z)

/-- `make_segment_mask_for_grid`: first the full binary scan (which may
raise `"structure has no segment data"`), then — only if `sub_samples` was
given — the type assert, the `> 1` assert, and the boundary refinement.
Returns (all profile queries issued before returning or failing, result). -/
def make_segment_mask_for_grid (s : Struct) (g : GridSpec)
    (subSamples : Option PyVal) :
    List (VVec × VVec) × Except String (ℕ → ℕ → ℕ → ℚ) :=
  match make_segment_mask_for_structure g s with
  | (tr, Except.error e) => (tr, Except.error e)
  | (tr, Except.ok m) =>
    match subSamples with
    | none => (tr, Except.ok fun x y z => boolToQ (m x y z))
    | some v =>
      match v with
      | PyVal.intV n =>
        if n ≤ 1 then (tr, Except.error "sub_samples must be > 1")
        else
          (tr ++ (boundaryIdx s g).flatMap
              (fun p => refineCalls g n.toNat p.1 p.2.1 p.2.2),
           Except.ok (subMask s g n.toNat))
      | _ => (tr, Except.error "sub_samples must be an integer")

/-- A dose collaborator: `VoxelToDoseValue(i).Dose`, `GetVoxels` (read per
z-slice as `getVoxels z x y`), and `GetDoseProfile` where `none` models a
NaN double. -/
structure DoseObj where
  voxelToDose : ℤ → ℚ
  getVoxels : ℕ → ℕ → ℕ → ℤ
  doseProfile : VVec → VVec → ℕ → ℕ → Option ℚ

/-- `image_to_nparray`: `_array[:, :, z] = GetVoxels(z, buffer)`, so the
value at `[x, y, z]` is `getVoxels z x y`. -/
def image_to_nparray (d : DoseObj) : ℕ → ℕ → ℕ → ℤ :=
  fun x y z => d.getVoxels z x y

/-- `scale = VoxelToDoseValue(1).Dose - VoxelToDoseValue(0).Dose`. -/
def doseScale (d : DoseObj) : ℚ := d.voxelToDose 1 - d.voxelToDose 0

/-- `offset = VoxelToDoseValue(0).Dose / scale`. -/
def doseOffset (d : DoseObj) : ℚ := d.voxelToDose 0 / doseScale d

/-- `dose_to_nparray`: `scale * dose_array.astype(float) + offset`. -/
def dose_to_nparray (d : DoseObj) : ℕ → ℕ → ℕ → ℚ :=
  fun x y z => doseScale d * ((image_to_nparray d x y z : ℤ) : ℚ) + doseOffset d

/-- `dose_array[np.where(np.isnan(dose_array))] = 0.0` on one entry. -/
def nanScrub (q : Option ℚ) : ℚ := q.getD 0

/-- `make_dose_for_grid`: with an image, scan `GetDoseProfile` over the
image grid; otherwise calibrate the raw voxels; then scrub NaNs to `0.0`.
(On the default path the values are finite rationals, so the scrub leaves
them unchanged.) -/
def make_dose_for_grid (d : DoseObj) (img : Option GridSpec) :
    ℕ → ℕ → ℕ → ℚ :=
  match img with
  | some g => fun x y z =>
      nanScrub (d.doseProfile (scanStart g x y) (scanStop g x y) g.zSize z)
  | none => fun x y z => dose_to_nparray d x y z

/-- `check_arrays` (`SAFE_MODE` copy verification): asserts equal lengths,
then asserts `any(A == B for A, B in zip(a, b))`. -/
def check_arrays (a b : List ℚ) : Except String Unit :=
  if a.length = b.length then
    if (a.zip b).any (fun p => p.1 == p.2) then Except.ok ()
    else Except.error "Arrays have different values!"
  else Except.error "Arrays are different size!"

/-! ## Helper lemmas -/

lemma scanStart_closed (g : GridSpec) (x y : ℕ) :
    scanStart g x y =
      vadd g.origin (vadd (smul ((x : ℚ) * g.xRes) g.xDir)
        (smul ((y : ℚ) * g.yRes) g.yDir)) := by
  induction y with
  | zero =>
      simp only [scanStart, scanStartX, vadd, smul, Nat.cast_zero, VVec.mk.injEq]
      refine ⟨?_, ?_, ?_⟩ <;> ring
  | succ y0 ih =>
      simp only [scanStart, ih, yStep, vadd, smul, Nat.cast_succ, VVec.mk.injEq]
      refine ⟨?_, ?_, ?_⟩ <;> ring

lemma eroded_imp_dilated (s : Struct) (g : GridSpec) (x y z : ℕ)
    (h : erodedAt s g x y z = true) : dilatedAt s g x y z = true := by
  simp only [erodedAt, nbrOffsets, List.all_cons, List.all_nil,
    Bool.and_eq_true, Bool.and_true] at h
  simp only [dilatedAt, nbrOffsets, List.any_cons, List.any_nil,
    Bool.or_eq_true, Bool.or_false]
  exact Or.inl h.1

lemma boundary_eroded_false (s : Struct) (g : GridSpec) (x y z : ℕ)
    (h : boundaryAt s g x y z = true) : erodedAt s g x y z = false := by
  cases he : erodedAt s g x y z with
  | false => rfl
  | true =>
      have hd := eroded_imp_dilated s g x y z he
      rw [boundaryAt, he, hd] at h
      simp at h

lemma length_flatMap_map {α β γ : Type} (l1 : List α) (l2 : List β)
    (f : α → β → γ) :
    (l1.flatMap fun a => l2.map (f a)).length = l1.length * l2.length := by
  induction l1 with
  | nil => simp
  | cons a t ih =>
      simp only [List.flatMap_cons, List.length_append, List.length_map, ih,
        List.length_cons]
      ring

lemma linspace_length (a b : ℚ) (n : ℕ) : (linspace a b n).length = n := by
  rw [linspace, List.length_map, List.length_range]

lemma scanCalls_length (g : GridSpec) :
    (scanCalls g).length = g.xSize * g.ySize := by
  rw [scanCalls, length_flatMap_map, List.length_range, List.length_range]

lemma refineCalls_length (g : GridSpec) (n ix iy iz : ℕ) :
    (refineCalls g n ix iy iz).length = n * n := by
  rw [refineCalls, length_flatMap_map, linspace_length, linspace_length]

lemma sum_le_length_mul (l : List ℕ) (m : ℕ) (h : ∀ a ∈ l, a ≤ m) :
    l.sum ≤ l.length * m := by
  induction l with
  | nil => simp
  | cons a t ih =>
      have ha := h a (List.mem_cons_self a t)
      have ht := ih fun b hb => h b (List.mem_cons_of_mem a hb)
      simp only [List.sum_cons, List.length_cons, Nat.succ_mul]
      omega

lemma bitCount_le (s : Struct) (st sp : VVec) (n : ℕ) :
    bitCount s st sp n ≤ n := by
  have h : (List.range n).countP (fun i => s.segProfile st sp n i) ≤
      (List.range n).length := List.countP_le_length _
  simpa [bitCount] using h

lemma refineCount_le (s : Struct) (g : GridSpec) (n ix iy iz : ℕ) :
    refineCount s g n ix iy iz ≤ n ^ 3 := by
  rw [refineCount]
  have h1 := sum_le_length_mul
    ((refineCalls g n ix iy iz).map fun q => bitCount s q.1 q.2 n) n ?_
  · calc ((refineCalls g n ix iy iz).map fun q => bitCount s q.1 q.2 n).sum
        ≤ ((refineCalls g n ix iy iz).map fun q => bitCount s q.1 q.2 n).length * n := h1
      _ = n * n * n := by rw [List.length_map, refineCalls_length]
      _ = n ^ 3 := by ring
  · intro a ha
    rcases List.mem_map.mp ha with ⟨q, _, rfl⟩
    exact bitCount_le s q.1 q.2 n

lemma refineFrac_nonneg (s : Struct) (g : GridSpec) (n ix iy iz : ℕ) :
    0 ≤ refineFrac s g n ix iy iz := by
  exact div_nonneg (Nat.cast_nonneg _) (by positivity)

lemma refineFrac_le_one (s : Struct) (g : GridSpec) (n ix iy iz : ℕ) :
    refineFrac s g n ix iy iz ≤ 1 := by
  rcases Nat.eq_zero_or_pos n with hn | hn
  · subst hn; simp [refineFrac]
  · rw [refineFrac]
    apply div_le_one_of_le₀
    · exact_mod_cast refineCount_le s g n ix iy iz
    · positivity

lemma subMask_eq (s : Struct) (g : GridSpec) (n x y z : ℕ) :
    subMask s g n x y z =
      if boundaryAt s g x y z = true then refineFrac s g n x y z
      else boolToQ (erodedAt s g x y z) := by
  rw [subMask, boundaryFrac]
  by_cases h : boundaryAt s g x y z = true
  · rw [if_pos h, if_pos h, boundary_eroded_false s g x y z h]
    simp [boolToQ]
  · rw [if_neg h, if_neg h, zero_add]

lemma flatMap_map_getElem {α β γ : Type} (l1 : List α) (l2 : List β)
    (f : α → β → γ) (i j : ℕ) (hi : i < l1.length) (hj : j < l2.length) :
    (l1.flatMap fun a => l2.map (f a))[i * l2.length + j]? =
      some (f l1[i] l2[j]) := by
  induction l1 generalizing i with
  | nil => simp at hi
  | cons a t ih =>
      cases i with
      | zero =>
          simp only [List.flatMap_cons, Nat.zero_mul, Nat.zero_add]
          rw [List.getElem?_append_left (by simpa using hj),
            List.getElem?_map, List.getElem?_eq_getElem hj]
          rfl
      | succ i0 =>
          have hi0 : i0 < t.length := by simpa using hi
          have hge : (l2.map (f a)).length ≤ (i0 + 1) * l2.length + j := by
            rw [List.length_map, Nat.succ_mul]
            omega
          rw [List.flatMap_cons, List.getElem?_append_right hge]
          have harith : (i0 + 1) * l2.length + j - (l2.map (f a)).length =
              i0 * l2.length + j := by
            rw [List.length_map, Nat.succ_mul]
            omega
          rw [harith, ih i0 hi0]
          simp

lemma linspace_getElem (a b : ℚ) (n i : ℕ) (h : i < (linspace a b n).length) :
    (linspace a b n)[i] = a + (i : ℚ) * ((b - a) / ((n : ℚ) - 1)) := by
  simp [linspace]

/-! ## Concrete collaborators used by witnesses and counterexamples -/

/-- A structure with segment data whose inside test is constantly true. -/
def sEx : Struct := ⟨true, fun _ _ _ _ => true⟩

/-- A structure without segment data. -/
def sNoSeg : Struct := ⟨false, fun _ _ _ _ => true⟩

/-- A 1 × 1 × 1 axis-aligned unit grid at the origin. -/
def gEx : GridSpec := ⟨⟨0, 0, 0⟩, ⟨1, 0, 0⟩, ⟨0, 1, 0⟩, ⟨0, 0, 1⟩, 1, 1, 1, 1, 1, 1⟩

/-- A 2 × 2 × 2 axis-aligned unit grid at the origin. -/
def gEx2 : GridSpec := ⟨⟨0, 0, 0⟩, ⟨1, 0, 0⟩, ⟨0, 1, 0⟩, ⟨0, 0, 1⟩, 1, 1, 1, 2, 2, 2⟩

/-- A 4 × 4 × 4 axis-aligned grid with anisotropic resolution, off-origin. -/
def gAx : GridSpec := ⟨⟨3, 4, 5⟩, ⟨1, 0, 0⟩, ⟨0, 1, 0⟩, ⟨0, 0, 1⟩, 2, 3, 5, 4, 4, 4⟩

/-- A dose whose reference values are `dose(0) = 2`, `dose(1) = 4` and whose
raw voxels are all `0`. -/
def dC2 : DoseObj := ⟨fun i => 2 + 2 * (i : ℚ), fun _ _ _ => 0, fun _ _ _ _ => some 0⟩

/-- A dose with `dose(0) = 0`, `dose(1) = 3`, raw voxel `0` at `x = 0` and
`1` elsewhere. -/
def dW2 : DoseObj :=
  ⟨fun i => 3 * (i : ℚ), fun _ x _ => if x = 0 then 0 else 1, fun _ _ _ _ => some 0⟩

/-- A dose-profile collaborator reporting NaN (modelled `none`) at the ray of
column (1, 1), depth index 1, and `5.0` everywhere else. -/
def dEx8 : DoseObj :=
  ⟨fun i => (i : ℚ), fun _ _ _ => 0,
   fun st _ _ i => if st.x = 1 ∧ st.y = 1 ∧ i = 1 then none else some 5⟩

/-! ## Claim theorems -/

/-- C5: for every grid and indices `x_index < size_x`, `y_index < size_y`,
the scan's ray endpoints satisfy
`start = origin + x*resolution_x*direction_x + y*resolution_y*direction_y`
and `stop = start + (size_z - 1)*resolution_z*direction_z`; for an
axis-aligned grid, column (0, 0) starts at the origin and its stop differs
from the origin by `(size_z - 1)*resolution_z` along z only. -/
theorem C5_column_endpoints (g : GridSpec) (x y : ℕ)
    (hx : x < g.xSize) (hy : y < g.ySize) :
    scanStart g x y =
      vadd g.origin (vadd (smul ((x : ℚ) * g.xRes) g.xDir)
        (smul ((y : ℚ) * g.yRes) g.yDir)) ∧
    scanStop g x y =
      vadd (scanStart g x y) (smul (((g.zSize : ℚ) - 1) * g.zRes) g.zDir) ∧
    (g.xDir = ⟨1, 0, 0⟩ → g.yDir = ⟨0, 1, 0⟩ → g.zDir = ⟨0, 0, 1⟩ →
      scanStart g 0 0 = g.origin ∧
      scanStop g 0 0 =
        ⟨g.origin.x, g.origin.y, g.origin.z + ((g.zSize : ℚ) - 1) * g.zRes⟩) := by
  refine ⟨scanStart_closed g x y, rfl, fun hxd hyd hzd => ⟨?_, ?_⟩⟩
  · simp [scanStart, scanStartX, vadd, smul]
  · simp [scanStop, scanStart, scanStartX, zSpan, vadd, smul, hzd]

/-- C5 witness: concrete axis-aligned grid, column (0, 0). -/
theorem C5_column_endpoints_witness :
    (0 : ℕ) < gAx.xSize ∧ (0 : ℕ) < gAx.ySize ∧
    scanStart gAx 0 0 =
      vadd gAx.origin (vadd (smul (((0 : ℕ) : ℚ) * gAx.xRes) gAx.xDir)
        (smul (((0 : ℕ) : ℚ) * gAx.yRes) gAx.yDir)) :=
  ⟨by decide, by decide, (C5_column_endpoints gAx 0 0 (by decide) (by decide)).1⟩

/-- C7: `make_segment_mask_for_structure` returns the boolean array filled by
the segment-profile scan (value at in-range `[x, y, z]` is the profile bit of
the column ray given by the scan geometry) when the structure has segment
data, and fails with the no-segment-data error otherwise. -/
theorem C7_structure_mask (g : GridSpec) (s : Struct) (x y z : ℕ)
    (hx : x < g.xSize) (hy : y < g.ySize) (hz : z < g.zSize) :
    (make_segment_mask_for_structure g s).2 =
      (if s.hasSegment = true then Except.ok (segMask s g)
       else Except.error "structure has no segment data") ∧
    segMask s g x y z =
      s.segProfile
        (vadd g.origin (vadd (smul ((x : ℚ) * g.xRes) g.xDir)
          (smul ((y : ℚ) * g.yRes) g.yDir)))
        (vadd (scanStart g x y) (zSpan g)) g.zSize z := by
  constructor
  · rw [make_segment_mask_for_structure]
    split <;> rfl
  · rw [← scanStart_closed g x y]
    rfl

/-- C7 witness: concrete grid and structure with segment data. -/
theorem C7_structure_mask_witness :
    (0 : ℕ) < gEx2.xSize ∧ (0 : ℕ) < gEx2.ySize ∧ (0 : ℕ) < gEx2.zSize ∧
    (make_segment_mask_for_structure gEx2 sEx).2 =
      (if sEx.hasSegment = true then Except.ok (segMask sEx gEx2)
       else Except.error "structure has no segment data") :=
  ⟨by decide, by decide, by decide,
   (C7_structure_mask gEx2 sEx 0 0 0 (by decide) (by decide) (by decide)).1⟩

/-- C9: the eroded mask is 0 at every boundary voxel, the partials array is 0
at every non-boundary voxel, and the elementwise sum
`mask_partials + mask_eroded` gives each voxel exactly one of the two
contributions (it equals their pointwise max, never exceeding either alone). -/
theorem C9_partial_eroded_disjoint (s : Struct) (g : GridSpec) (n x y z : ℕ) :
    (boundaryAt s g x y z && erodedAt s g x y z) = false ∧
    subMask s g n x y z =
      boundaryFrac s g n x y z + boolToQ (erodedAt s g x y z) ∧
    subMask s g n x y z =
      (if boundaryAt s g x y z = true then refineFrac s g n x y z
       else boolToQ (erodedAt s g x y z)) ∧
    subMask s g n x y z =
      max (boundaryFrac s g n x y z) (boolToQ (erodedAt s g x y z)) := by
  refine ⟨?_, rfl, subMask_eq s g n x y z, ?_⟩
  · cases hB : boundaryAt s g x y z with
    | false => simp
    | true => simp [boundary_eroded_false s g x y z hB]
  · rw [subMask_eq s g n x y z]
    cases hB : boundaryAt s g x y z with
    | false =>
        rw [if_neg (by simp), boundaryFrac, if_neg (by simp [hB])]
        refine (max_eq_right ?_).symm
        cases erodedAt s g x y z <;> simp [boolToQ]
    | true =>
        rw [if_pos rfl, boundaryFrac, if_pos hB,
          boundary_eroded_false s g x y z hB]
        show refineFrac s g n x y z = max (refineFrac s g n x y z) (boolToQ false)
        rw [show boolToQ false = (0 : ℚ) from rfl]
        exact (max_eq_left (refineFrac_nonneg s g n x y z)).symm

/-- C10: any `sub_samples` whose dynamic type is not exactly `int` (e.g.
the float `2.0`, the bool `True`) makes `make_segment_mask_for_grid` fail
with the type assertion, even when the value compares greater than 1. -/
theorem C10_int_type_assert (s : Struct) (g : GridSpec) (v : PyVal)
    (hs : s.hasSegment = true) (hv : v.isInt = false) :
    (make_segment_mask_for_grid s g (some v)).2 =
      Except.error "sub_samples must be an integer" := by
  cases v with
  | intV n => simp [PyVal.isInt] at hv
  | floatV q =>
      simp [make_segment_mask_for_grid, make_segment_mask_for_structure, hs]
  | boolV b =>
      simp [make_segment_mask_for_grid, make_segment_mask_for_structure, hs]

/-- C10 witness: the float `2.0` (which compares greater than 1) is
rejected by the type assertion. -/
theorem C10_int_type_assert_witness :
    sEx.hasSegment = true ∧ PyVal.isInt (PyVal.floatV 2) = false ∧
    (1 : ℚ) < 2 ∧
    (make_segment_mask_for_grid sEx gEx (some (PyVal.floatV 2))).2 =
      Except.error "sub_samples must be an integer" :=
  ⟨rfl, rfl, by norm_num, C10_int_type_assert sEx gEx (PyVal.floatV 2) rfl rfl⟩

/-- C1: for a structure with segment data, a grid, and integer
`sub_samples > 1`, `make_segment_mask_for_grid` returns `subMask`, every
in-range element of which lies in `[0, 1]`, and every voxel not in the
boundary set (dilated XOR eroded) equals its binary eroded value exactly. -/
theorem C1_subsampled_bounds (s : Struct) (g : GridSpec) (n : ℤ)
    (hn : 1 < n) (hs : s.hasSegment = true) (x y z : ℕ)
    (hx : x < g.xSize) (hy : y < g.ySize) (hz : z < g.zSize) :
    (make_segment_mask_for_grid s g (some (PyVal.intV n))).2 =
      Except.ok (subMask s g n.toNat) ∧
    0 ≤ subMask s g n.toNat x y z ∧ subMask s g n.toNat x y z ≤ 1 ∧
    (boundaryAt s g x y z = false →
      subMask s g n.toNat x y z = boolToQ (erodedAt s g x y z)) := by
  have h1 : ¬ n ≤ 1 := not_le.mpr hn
  refine ⟨?_, ?_, ?_, ?_⟩
  · simp [make_segment_mask_for_grid, make_segment_mask_for_structure, hs, h1]
  · rw [subMask_eq]
    split
    · exact refineFrac_nonneg s g n.toNat x y z
    · cases erodedAt s g x y z <;> simp [boolToQ]
  · rw [subMask_eq]
    split
    · exact refineFrac_le_one s g n.toNat x y z
    · cases erodedAt s g x y z <;> simp [boolToQ]
  · intro hB
    rw [subMask_eq, if_neg (by simp [hB])]

/-- C1 witness: concrete structure, 2 × 2 × 2 grid, `sub_samples = 2`. -/
theorem C1_subsampled_bounds_witness :
    1 < (2 : ℤ) ∧ sEx.hasSegment = true ∧
    (0 : ℕ) < gEx2.xSize ∧ (0 : ℕ) < gEx2.ySize ∧ (0 : ℕ) < gEx2.zSize ∧
    0 ≤ subMask sEx gEx2 (Int.toNat 2) 0 0 0 ∧
    subMask sEx gEx2 (Int.toNat 2) 0 0 0 ≤ 1 :=
  ⟨by decide, rfl, by decide, by decide, by decide,
   (C1_subsampled_bounds sEx gEx2 2 (by decide) rfl 0 0 0 (by decide)
     (by decide) (by decide)).2.1,
   (C1_subsampled_bounds sEx gEx2 2 (by decide) rfl 0 0 0 (by decide)
     (by decide) (by decide)).2.2.1⟩

/-- C3 counterexample: with a valid structure on a 1 × 1 × 1 grid and
`sub_samples = 1`, the call does fail with the sub-samples assertion, but
only after one profile-function call was already issued — scanning work is
performed before the precondition violation is detected, contradicting the
claim that the check happens before any scanning work. -/
theorem C3_scan_before_check_counterexample :
    (make_segment_mask_for_grid sEx gEx (some (PyVal.intV 1))).2 =
      Except.error "sub_samples must be > 1" ∧
    (make_segment_mask_for_grid sEx gEx (some (PyVal.intV 1))).1.length = 1 :=
  ⟨rfl, rfl⟩

/-- C3 amended: the missing-segment-data check is eager (no profile call is
issued before that failure), but the `sub_samples` check runs only after the
full binary-mask scan: an invalid `sub_samples ≤ 1` fails after exactly
`size_x * size_y` profile-function calls. -/
theorem C3_precondition_order (s sNo : Struct) (g : GridSpec) (k : ℤ)
    (hs : s.hasSegment = true) (hk : k ≤ 1) (hsNo : sNo.hasSegment = false)
    (v : Option PyVal) :
    (make_segment_mask_for_grid s g (some (PyVal.intV k))).2 =
      Except.error "sub_samples must be > 1" ∧
    (make_segment_mask_for_grid s g (some (PyVal.intV k))).1 = scanCalls g ∧
    (scanCalls g).length = g.xSize * g.ySize ∧
    (make_segment_mask_for_grid sNo g v).2 =
      Except.error "structure has no segment data" ∧
    (make_segment_mask_for_grid sNo g v).1 = [] := by
  refine ⟨?_, ?_, scanCalls_length g, ?_, ?_⟩
  · simp [make_segment_mask_for_grid, make_segment_mask_for_structure, hs, hk]
  · simp [make_segment_mask_for_grid, make_segment_mask_for_structure, hs, hk]
  · simp [make_segment_mask_for_grid, make_segment_mask_for_structure, hsNo]
  · simp [make_segment_mask_for_grid, make_segment_mask_for_structure, hsNo]

/-- C3 witness for the amended claim. -/
theorem C3_precondition_order_witness :
    sEx.hasSegment = true ∧ (1 : ℤ) ≤ 1 ∧ sNoSeg.hasSegment = false ∧
    (make_segment_mask_for_grid sNoSeg gEx none).1 = [] :=
  ⟨rfl, by decide, rfl,
   (C3_precondition_order sEx sNoSeg gEx 1 rfl (by decide) rfl none).2.2.2.2⟩

/-- C2 counterexample: with reference doses `dose(0) = 2`, `dose(1) = 4`
(so `scale = 2 ≠ 0`) and a raw voxel of value 0, the calibrated result is
`scale*0 + dose(0)/scale = 1`, not the reference value `dose(0) = 2`. -/
theorem C2_calibration_counterexample :
    doseScale dC2 ≠ 0 ∧
    image_to_nparray dC2 0 0 0 = 0 ∧
    dC2.voxelToDose 0 = 2 ∧
    dose_to_nparray dC2 0 0 0 = 1 ∧
    dose_to_nparray dC2 0 0 0 ≠ dC2.voxelToDose 0 := by
  refine ⟨?_, rfl, ?_, ?_, ?_⟩
  · norm_num [doseScale, dC2]
  · norm_num [dC2]
  · norm_num [dose_to_nparray, doseScale, doseOffset, image_to_nparray, dC2]
  · norm_num [dose_to_nparray, doseScale, doseOffset, image_to_nparray, dC2]

/-- C2 amended: when the minimum stored dose `dose(0)` is 0 (the case the
code's comment describes for Eclipse plans) and `dose(1) ≠ 0`, the
calibration reproduces both reference values exactly: a raw 0 maps to
`dose(0)` and a raw 1 maps to `dose(1)`. -/
theorem C2_calibration_zero_min (d : DoseObj) (h0 : d.voxelToDose 0 = 0)
    (h1 : d.voxelToDose 1 ≠ 0) (x y z : ℕ) :
    (image_to_nparray d x y z = 0 →
      dose_to_nparray d x y z = d.voxelToDose 0) ∧
    (image_to_nparray d x y z = 1 →
      dose_to_nparray d x y z = d.voxelToDose 1) := by
  have hsc : doseScale d = d.voxelToDose 1 := by rw [doseScale, h0, sub_zero]
  have hof : doseOffset d = 0 := by rw [doseOffset, h0, zero_div]
  constructor
  · intro hr
    simp only [dose_to_nparray, hr, Int.cast_zero, mul_zero, zero_add, hof, h0]
  · intro hr
    simp only [dose_to_nparray, hr, Int.cast_one, mul_one, hof, add_zero, hsc]

/-- C2 witness for the amended claim: `dose(0) = 0`, `dose(1) = 3`. -/
theorem C2_calibration_zero_min_witness :
    dW2.voxelToDose 0 = 0 ∧ dW2.voxelToDose 1 ≠ 0 ∧
    dose_to_nparray dW2 0 0 0 = dW2.voxelToDose 0 ∧
    dose_to_nparray dW2 1 0 0 = dW2.voxelToDose 1 := by
  have h0 : dW2.voxelToDose 0 = 0 := by norm_num [dW2]
  have h1 : dW2.voxelToDose 1 ≠ 0 := by norm_num [dW2]
  have hr0 : image_to_nparray dW2 0 0 0 = 0 := rfl
  have hr1 : image_to_nparray dW2 1 0 0 = 1 := rfl
  exact ⟨h0, h1, (C2_calibration_zero_min dW2 h0 h1 0 0 0).1 hr0,
    (C2_calibration_zero_min dW2 h0 h1 1 0 0).2 hr1⟩

/-- C4: the SAFE_MODE verification `check_arrays` uses `any`, not `all`:
for `src = [1, 2]` and `dest = [1, 3]`, which diverge at the second element,
verification passes — the code contradicts the claimed (and intended)
semantics that it fail whenever any corresponding pair diverges. Length
mismatches are, as claimed, rejected. -/
theorem C4_check_arrays_any_defect :
    check_arrays [(1 : ℚ), 2] [(1 : ℚ), 3] = Except.ok () ∧
    (2 : ℚ) ≠ 3 ∧
    check_arrays [(1 : ℚ)] [(1 : ℚ), 3] =
      Except.error "Arrays are different size!" :=
  ⟨rfl, by norm_num, rfl⟩

/-- C8: in `make_dose_for_grid`, every NaN (modelled `none`) profile entry is
replaced by `0.0` in the returned array, every non-NaN entry keeps its value,
and on the default (no-image) path the returned entries are exactly the
calibrated `dose_to_nparray` values. -/
theorem C8_nan_scrub (d : DoseObj) (g : GridSpec) (x y z : ℕ) :
    (d.doseProfile (scanStart g x y) (scanStop g x y) g.zSize z = none →
      make_dose_for_grid d (some g) x y z = 0) ∧
    (∀ q : ℚ,
      d.doseProfile (scanStart g x y) (scanStop g x y) g.zSize z = some q →
      make_dose_for_grid d (some g) x y z = q) ∧
    make_dose_for_grid d none x y z = dose_to_nparray d x y z := by
  refine ⟨?_, ?_, rfl⟩
  · intro h
    simp [make_dose_for_grid, nanScrub, h]
  · intro q h
    simp [make_dose_for_grid, nanScrub, h]

/-- C8 witness: a profile with NaN at the column (1,1), depth 1 — i.e. voxel
(1,1,1) — yields `0.0` there and the reported dose `5.0` elsewhere. -/
theorem C8_nan_scrub_witness :
    dEx8.doseProfile (scanStart gEx2 1 1) (scanStop gEx2 1 1) gEx2.zSize 1 =
      none ∧
    make_dose_for_grid dEx8 (some gEx2) 1 1 1 = 0 ∧
    dEx8.doseProfile (scanStart gEx2 0 0) (scanStop gEx2 0 0) gEx2.zSize 0 =
      some 5 ∧
    make_dose_for_grid dEx8 (some gEx2) 0 0 0 = 5 := by
  have h11 : scanStart gEx2 1 1 = ⟨1, 1, 0⟩ := by
    rw [scanStart_closed]
    simp [gEx2, vadd, smul]
  have h00 : scanStart gEx2 0 0 = ⟨0, 0, 0⟩ := by
    rw [scanStart_closed]
    simp [gEx2, vadd, smul]
  have hp1 : dEx8.doseProfile (scanStart gEx2 1 1) (scanStop gEx2 1 1)
      gEx2.zSize 1 = none := by
    rw [h11]
    simp [dEx8]
  have hp0 : dEx8.doseProfile (scanStart gEx2 0 0) (scanStop gEx2 0 0)
      gEx2.zSize 0 = some 5 := by
    rw [h00]
    simp [dEx8]
  exact ⟨hp1, (C8_nan_scrub dEx8 gEx2 1 1 1).1 hp1, hp0,
    (C8_nan_scrub dEx8 gEx2 0 0 0).2.1 5 hp0⟩

/-- C6: for every voxel and `sub_samples = n ≥ 2`, the partial-volume
refinement issues exactly `n * n` segment queries; the query at position
`i * n + j` is the depth segment from
`(x + xf i, y + yf j, z - rz/2)` to `(x + xf i, y + yf j, z + rz/2)` where
`xf i = -rx/2 + i * (rx/(n-1))` and `yf j = -ry/2 + j * (ry/(n-1))` are the
evenly spaced lateral offsets (so the offset grid covers
`[-rx/2, rx/2] × [-ry/2, ry/2]` with inclusive endpoints, `n` points per
axis — first offset `-rx/2`, last `rx/2`); with the profile buffer sampled
at `n` points per query, the returned fraction is
(total inside-sample count) / n³. -/
theorem C6_refine_query_grid (s : Struct) (g : GridSpec) (n ix iy iz : ℕ)
    (hn : 2 ≤ n) (i j : ℕ) (hi : i < n) (hj : j < n) :
    (refineCalls g n ix iy iz).length = n * n ∧
    (refineCalls g n ix iy iz)[i * n + j]? =
      some
        (⟨(voxelCenter g ix iy iz).x +
            (-(1/2) * g.xRes + (i : ℚ) * (g.xRes / ((n : ℚ) - 1))),
          (voxelCenter g ix iy iz).y +
            (-(1/2) * g.yRes + (j : ℚ) * (g.yRes / ((n : ℚ) - 1))),
          (voxelCenter g ix iy iz).z - (1/2) * g.zRes⟩,
         ⟨(voxelCenter g ix iy iz).x +
            (-(1/2) * g.xRes + (i : ℚ) * (g.xRes / ((n : ℚ) - 1))),
          (voxelCenter g ix iy iz).y +
            (-(1/2) * g.yRes + (j : ℚ) * (g.yRes / ((n : ℚ) - 1))),
          (voxelCenter g ix iy iz).z + (1/2) * g.zRes⟩) ∧
    (linspace (-(1/2) * g.xRes) ((1/2) * g.xRes) n)[0]? =
      some (-(1/2) * g.xRes) ∧
    (linspace (-(1/2) * g.xRes) ((1/2) * g.xRes) n)[n - 1]? =
      some ((1/2) * g.xRes) ∧
    refineFrac s g n ix iy iz =
      (refineCount s g n ix iy iz : ℚ) / ((n : ℚ) ^ 3) ∧
    refineCount s g n ix iy iz =
      ((refineCalls g n ix iy iz).map fun q => bitCount s q.1 q.2 n).sum := by
  have hne : ((n : ℚ) - 1) ≠ 0 := by
    have h2 : (2 : ℚ) ≤ (n : ℚ) := by exact_mod_cast hn
    linarith
  have hi' : i < (linspace (-(1/2) * g.xRes) ((1/2) * g.xRes) n).length := by
    rw [linspace_length]
    exact hi
  have hj' : j < (linspace (-(1/2) * g.yRes) ((1/2) * g.yRes) n).length := by
    rw [linspace_length]
    exact hj
  refine ⟨refineCalls_length g n ix iy iz, ?_, ?_, ?_, rfl, rfl⟩
  · have hmain := flatMap_map_getElem
      (linspace (-(1/2) * g.xRes) ((1/2) * g.xRes) n)
      (linspace (-(1/2) * g.yRes) ((1/2) * g.yRes) n)
      (fun xf yf =>
        ((⟨(voxelCenter g ix iy iz).x + xf, (voxelCenter g ix iy iz).y + yf,
           (voxelCenter g ix iy iz).z - (1/2) * g.zRes⟩ : VVec),
         (⟨(voxelCenter g ix iy iz).x + xf, (voxelCenter g ix iy iz).y + yf,
           (voxelCenter g ix iy iz).z + (1/2) * g.zRes⟩ : VVec)))
      i j hi' hj'
    rw [linspace_length] at hmain
    have hgoal :
        ((⟨(voxelCenter g ix iy iz).x +
             (linspace (-(1/2) * g.xRes) ((1/2) * g.xRes) n)[i],
           (voxelCenter g ix iy iz).y +
             (linspace (-(1/2) * g.yRes) ((1/2) * g.yRes) n)[j],
           (voxelCenter g ix iy iz).z - (1/2) * g.zRes⟩ : VVec),
         (⟨(voxelCenter g ix iy iz).x +
             (linspace (-(1/2) * g.xRes) ((1/2) * g.xRes) n)[i],
           (voxelCenter g ix iy iz).y +
             (linspace (-(1/2) * g.yRes) ((1/2) * g.yRes) n)[j],
           (voxelCenter g ix iy iz).z + (1/2) * g.zRes⟩ : VVec)) =
        ((⟨(voxelCenter g ix iy iz).x +
             (-(1/2) * g.xRes + (i : ℚ) * (g.xRes / ((n : ℚ) - 1))),
           (voxelCenter g ix iy iz).y +
             (-(1/2) * g.yRes + (j : ℚ) * (g.yRes / ((n : ℚ) - 1))),
           (voxelCenter g ix iy iz).z - (1/2) * g.zRes⟩ : VVec),
         (⟨(voxelCenter g ix iy iz).x +
             (-(1/2) * g.xRes + (i : ℚ) * (g.xRes / ((n : ℚ) - 1))),
           (voxelCenter g ix iy iz).y +
             (-(1/2) * g.yRes + (j : ℚ) * (g.yRes / ((n : ℚ) - 1))),
           (voxelCenter g ix iy iz).z + (1/2) * g.zRes⟩ : VVec)) := by
      rw [linspace_getElem _ _ _ _ hi', linspace_getElem _ _ _ _ hj']
      simp only [Prod.mk.injEq, VVec.mk.injEq, and_true]
      refine ⟨⟨?_, ?_⟩, ?_, ?_⟩ <;> ring
    exact hmain.trans (congrArg some hgoal)
  · rw [linspace, List.getElem?_map, List.getElem?_range (by omega : 0 < n)]
    refine congrArg some ?_
    show -(1/2) * g.xRes + ((0 : ℕ) : ℚ) *
        (((1/2) * g.xRes - -(1/2) * g.xRes) / ((n : ℚ) - 1)) =
      -(1/2) * g.xRes
    push_cast
    ring
  · rw [linspace, List.getElem?_map,
      List.getElem?_range (by omega : n - 1 < n)]
    refine congrArg some ?_
    show -(1/2) * g.xRes + ((n - 1 : ℕ) : ℚ) *
        (((1/2) * g.xRes - -(1/2) * g.xRes) / ((n : ℚ) - 1)) =
      (1/2) * g.xRes
    have h1n : (1 : ℕ) ≤ n := by omega
    rw [Nat.cast_sub h1n, Nat.cast_one]
    field_simp
    ring

/-- C6 witness: 2 × 2 × 2 grid, `sub_samples = 2`, query (0, 1). -/
theorem C6_refine_query_grid_witness :
    (2 : ℕ) ≤ 2 ∧ (0 : ℕ) < 2 ∧ (1 : ℕ) < 2 ∧
    (refineCalls gEx2 2 0 0 0).length = 2 * 2 :=
  ⟨by decide, by decide, by decide,
   (C6_refine_query_grid sEx gEx2 2 0 0 0 (by decide) 0 1 (by decide)
     (by decide)).1⟩
